import Mathlib

/-!
Verification of `miri_lrs_extract_L3.py`.

The script is thin glue over two external libraries: the JWST pipeline's
`Extract1dStep` and matplotlib.  We embed it shallowly: the external
libraries are an environment `Env` of (possibly failing) operations, the
script's observable behaviour is the list of library effects it performs,
and Python exceptions are `Except` errors that propagate through the
sequencing.  Data values inside spectral tables are an arbitrary type `α`
(the script never inspects them), and Python exception objects are an
arbitrary type `ε`.
-/

/-- Configuration attributes of an `Extract1dStep` instance that the script
touches: `save_results`, `output_dir`, `override_extract1d`,
`use_source_posn`. -/
structure StepConfig where
  save_results : Bool
  output_dir : String
  override_extract1d : String
  use_source_posn : Bool
deriving DecidableEq

/-- One spectrum of the product returned by `Extract1dStep.run`:
`spec_table` maps a column name to its column data. -/
structure Spectrum (α : Type) where
  spec_table : String → List α

/-- The `meta` attribute of the product; the script only reads `filename`. -/
structure ModelMeta where
  filename : String
deriving DecidableEq

/-- The in-memory spectral product returned by `Extract1dStep.run`
(`sp3` in the script): a list of spectra and metadata. -/
structure SpectralProduct (α : Type) where
  meta : ModelMeta
  spec : List (Spectrum α)

/-- Observable library effects performed by the script, in order. -/
inductive Effect (α : Type) where
  | runStep (cfg : StepConfig) (input : String)
  | figure (figsize : List Nat)
  | plotXY (x y : List α)
  | title (s : String)
  | xlabel (s : String)
  | ylabel (s : String)
  | savefig (file : String)
deriving DecidableEq

/-- True exactly on the extraction-step invocation effect. -/
def Effect.isRun {α : Type} : Effect α → Bool
  | .runStep _ _ => true
  | _ => false

/-- True exactly on the `plt.plot` call effect. -/
def Effect.isPlot {α : Type} : Effect α → Bool
  | .plotXY _ _ => true
  | _ => false

/-- True exactly on the `plt.savefig` call effect. -/
def Effect.isSave {α : Type} : Effect α → Bool
  | .savefig _ => true
  | _ => false

/-- The external world the script calls into: a fresh `Extract1dStep()`
instance (`initStep`, with whatever library defaults it carries), the
step's `run` method, and the matplotlib entry points.  Every operation may
raise, modelled by `Except ε`.  `indexError` is the exception object the
Python runtime raises for an out-of-range `sp3.spec[0]`. -/
structure Env (α ε : Type) where
  initStep : StepConfig
  runStep : StepConfig → String → Except ε (SpectralProduct α)
  indexError : ε
  mplFigure : List Nat → Except ε Unit
  mplPlot : List α → List α → Except ε Unit
  mplTitle : String → Except ε Unit
  mplXlabel : String → Except ε Unit
  mplYlabel : String → Except ε Unit
  mplSavefig : String → Except ε Unit

/-- Replace every occurrence of `pat` in the list, left to right and
non-overlapping, as Python's `str.replace` does for a non-empty pattern.
The recursion is driven by a fuel argument so that it is structural; each
step consumes at least one character, so fuel equal to the list length
always suffices.  In the match branch, `cs.drop (pat.length - 1)` is the
remainder of `c :: cs` after the matched occurrence. -/
def replaceList (pat rep : List Char) : Nat → List Char → List Char
  | _, [] => []
  | 0, l => l
  | fuel + 1, c :: cs =>
    if pat.isPrefixOf (c :: cs) then
      rep ++ replaceList pat rep fuel (cs.drop (pat.length - 1))
    else
      c :: replaceList pat rep fuel cs

/-- Whether `pat` occurs as a contiguous substring of `l` (Python's
`pat in l`). -/
def containsSub (l pat : List Char) : Bool :=
  match l with
  | [] => pat.isEmpty
  | _ :: cs => pat.isPrefixOf l || containsSub cs pat

/-- Python's `s.replace(pat, rep)` for the non-empty patterns the script
uses (for an empty pattern we return `s` unchanged; the script's pattern
is the fixed literal `"_extract1dstep.fits"`). -/
def pyReplace (s pat rep : String) : String :=
  if pat.data.isEmpty then s
  else ⟨replaceList pat.data rep.data s.data.length s.data⟩

/-- The step configuration built by lines 14-18 of the script: a fresh
`Extract1dStep()` whose `save_results`, `output_dir`,
`override_extract1d` and `use_source_posn` attributes are then assigned
in order. -/
def configuredStep {α ε : Type} (env : Env α ε) (parfile : String) : StepConfig :=
  { { { { env.initStep with save_results := true } with output_dir := "./" }
        with override_extract1d := parfile } with use_source_posn := false }

/-- The body of `extract_spectrum(s2dfile, parfile, plot)`: configure the
step, run it on `s2dfile`, and if `plot` is set, draw and save the
diagnostic figure.  The result is the ordered list of library effects, or
the first exception raised. -/
def extract_spectrum {α ε : Type} (env : Env α ε) (s2dfile parfile : String)
    (plot : Bool) : Except ε (List (Effect α)) :=
  let x1d := configuredStep env parfile
  match env.runStep x1d s2dfile with
  | .error e => .error e
  | .ok sp3 =>
    if plot then
      match env.mplFigure [10, 6] with
      | .error e => .error e
      | .ok _ =>
        match sp3.spec with
        | [] => .error env.indexError
        | s0 :: _ =>
          match env.mplPlot (s0.spec_table "WAVELENGTH") (s0.spec_table "FLUX") with
          | .error e => .error e
          | .ok _ =>
            match env.mplTitle sp3.meta.filename with
            | .error e => .error e
            | .ok _ =>
              match env.mplXlabel "micron" with
              | .error e => .error e
              | .ok _ =>
                match env.mplYlabel "Jy" with
                | .error e => .error e
                | .ok _ =>
                  let outfile := pyReplace sp3.meta.filename "_extract1dstep.fits" ".png"
                  match env.mplSavefig outfile with
                  | .error e => .error e
                  | .ok _ =>
                    .ok [Effect.runStep x1d s2dfile, Effect.figure [10, 6],
                         Effect.plotXY (s0.spec_table "WAVELENGTH") (s0.spec_table "FLUX"),
                         Effect.title sp3.meta.filename, Effect.xlabel "micron",
                         Effect.ylabel "Jy", Effect.savefig outfile]
    else
      .ok [Effect.runStep x1d s2dfile]

/-- The three values `extract_spectrum` is called with at line 43. -/
structure Args where
  s2dfile : String
  parfile : String
  save_plot : Bool
deriving DecidableEq

/-- What appeared on the command line: the value following `--s2dfile` if
given, the value following `--parfile` if given, and whether the
`--save_plot` flag was present. -/
structure CmdLine where
  s2dfile_opt : Option String
  parfile_opt : Option String
  save_plot_given : Bool
deriving DecidableEq

/-- Argparse behaviour for the parser configured at lines 38-42:
`--s2dfile` is required (parsing fails without it), `--parfile` defaults
to `"miri_lrs_demo_extract1d.json"`, and `--save_plot` is a `store_true`
flag, `true` exactly when present. -/
def parse_args (c : CmdLine) : Option Args :=
  match c.s2dfile_opt with
  | none => none
  | some s =>
    some { s2dfile := s,
           parfile := c.parfile_opt.getD "miri_lrs_demo_extract1d.json",
           save_plot := c.save_plot_given }

/-- The `__main__` block, lines 35-43: parse the command line and call
`extract_spectrum` with the parsed values (`none` when argparse rejects
the command line). -/
def mainCli {α ε : Type} (env : Env α ε) (c : CmdLine) :
    Option (Except ε (List (Effect α))) :=
  (parse_args c).map fun args =>
    extract_spectrum env args.s2dfile args.parfile args.save_plot

/-- A concrete spectral table used to exercise the theorems. -/
def sampleTable : String → List Int := fun c =>
  if c = "WAVELENGTH" then [5, 6, 7]
  else if c = "FLUX" then [10, 20, 30]
  else []

/-- A concrete product as `Extract1dStep.run` would return it. -/
def sampleProduct : SpectralProduct Int :=
  { meta := { filename := "jw01_extract1dstep.fits" },
    spec := [{ spec_table := sampleTable }] }

/-- A concrete external world: the step succeeds on `"demo_s2d.fits"` and
raises on any other path; every matplotlib call succeeds. -/
def sampleEnv : Env Int String :=
  { initStep := { save_results := false, output_dir := "", override_extract1d := "",
                  use_source_posn := true },
    runStep := fun _ inp =>
      if inp = "demo_s2d.fits" then .ok sampleProduct else .error "FileNotFoundError",
    indexError := "IndexError",
    mplFigure := fun _ => .ok (),
    mplPlot := fun _ _ => .ok (),
    mplTitle := fun _ => .ok (),
    mplXlabel := fun _ => .ok (),
    mplYlabel := fun _ => .ok (),
    mplSavefig := fun _ => .ok () }

/-- Like `sampleEnv` but `plt.savefig` raises. -/
def sampleEnvSaveFail : Env Int String :=
  { sampleEnv with mplSavefig := fun _ => .error "OSError" }

/-- Like `sampleEnv` but every matplotlib call raises; used to show the
no-plot path never consults the plotting library. -/
def sampleEnvMplBroken : Env Int String :=
  { sampleEnv with
    mplFigure := fun _ => .error "ImportError",
    mplPlot := fun _ _ => .error "ImportError",
    mplTitle := fun _ => .error "ImportError",
    mplXlabel := fun _ => .error "ImportError",
    mplYlabel := fun _ => .error "ImportError",
    mplSavefig := fun _ => .error "ImportError" }

/-- With the plot flag off, the call reduces to the single step invocation:
its trace is just the `runStep` effect, and its error is exactly the
step's error. -/
theorem extract_false_eq {α ε : Type} (env : Env α ε) (s p : String) :
    extract_spectrum env s p false =
      Except.map (fun _ => [Effect.runStep (configuredStep env p) s])
        (env.runStep (configuredStep env p) s) := by
  unfold extract_spectrum
  cases hr : env.runStep (configuredStep env p) s <;> simp [hr, Except.map]

/-- Inversion for a successful run with the plot flag on: the step
succeeded, the product had a first spectrum, and the trace is exactly the
step invocation followed by the six matplotlib calls. -/
theorem extract_true_ok_shape {α ε : Type} (env : Env α ε) (s p : String)
    (tr : List (Effect α)) (h : extract_spectrum env s p true = .ok tr) :
    ∃ sp3 s0 rest,
      env.runStep (configuredStep env p) s = .ok sp3 ∧
      sp3.spec = s0 :: rest ∧
      tr = [Effect.runStep (configuredStep env p) s, Effect.figure [10, 6],
            Effect.plotXY (s0.spec_table "WAVELENGTH") (s0.spec_table "FLUX"),
            Effect.title sp3.meta.filename, Effect.xlabel "micron", Effect.ylabel "Jy",
            Effect.savefig (pyReplace sp3.meta.filename "_extract1dstep.fits" ".png")] := by
  unfold extract_spectrum at h
  simp only [if_true] at h
  split at h
  · exact absurd h (by simp)
  · rename_i sp3 hrun
    split at h
    · exact absurd h (by simp)
    · split at h
      · exact absurd h (by simp)
      · rename_i s0 rest hspec
        split at h
        · exact absurd h (by simp)
        · split at h
          · exact absurd h (by simp)
          · split at h
            · exact absurd h (by simp)
            · split at h
              · exact absurd h (by simp)
              · split at h
                · exact absurd h (by simp)
                · exact ⟨sp3, s0, rest, hrun, hspec, (Except.ok.injEq _ _).mp h.symm⟩

/-- Every list contains the empty pattern. -/
theorem containsSub_nil_right (l : List Char) : containsSub l [] = true := by
  cases l <;> simp [containsSub, List.isPrefixOf]

/-- When `pat` does not occur in `l`, replacement leaves `l` unchanged,
whatever the fuel. -/
theorem replaceList_of_not_contains (pat rep : List Char) (fuel : Nat)
    (l : List Char) (h : containsSub l pat = false) :
    replaceList pat rep fuel l = l := by
  induction fuel generalizing l with
  | zero => cases l <;> rfl
  | succ n ih =>
    cases l with
    | nil => rfl
    | cons c cs =>
      simp only [containsSub, Bool.or_eq_false_iff] at h
      unfold replaceList
      rw [if_neg (by simp [h.1]), ih cs h.2]

/-- When the pattern does not occur in `s`, Python's `replace` is the
identity on `s`. -/
theorem pyReplace_of_not_contains (s pat rep : String)
    (h : containsSub s.data pat.data = false) : pyReplace s pat rep = s := by
  have hpat : pat.data.isEmpty = false := by
    cases hd : pat.data with
    | nil => rw [hd, containsSub_nil_right] at h; exact Bool.noConfusion h
    | cons a as => rfl
  unfold pyReplace
  rw [if_neg (by simp [hpat]), replaceList_of_not_contains _ _ _ _ h]

/-- The step configuration `sampleEnv` produces for parameter file
`"p.json"`. -/
def sampleCfg : StepConfig :=
  { save_results := true, output_dir := "./",
    override_extract1d := "p.json", use_source_posn := false }

/-- The trace produced by `sampleEnv` on a successful plotted run. -/
def sampleTrace : List (Effect Int) :=
  [Effect.runStep sampleCfg "demo_s2d.fits",
   Effect.figure [10, 6],
   Effect.plotXY [5, 6, 7] [10, 20, 30],
   Effect.title "jw01_extract1dstep.fits",
   Effect.xlabel "micron", Effect.ylabel "Jy",
   Effect.savefig "jw01.png"]

/-- C1: every invocation of `extract_spectrum(s2dfile, parfile, plot)`
assigns the caller's parameter file to the step's `override_extract1d`
setting and then invokes the step exactly once, on the input file path. -/
theorem extract_spectrum_configures_and_runs_once {α ε : Type} (env : Env α ε)
    (s p : String) (b : Bool) (tr : List (Effect α))
    (h : extract_spectrum env s p b = .ok tr) :
    List.filter Effect.isRun tr = [Effect.runStep (configuredStep env p) s] ∧
    (configuredStep env p).override_extract1d = p := by
  refine ⟨?_, rfl⟩
  cases b with
  | false =>
    rw [extract_false_eq] at h
    cases hr : env.runStep (configuredStep env p) s with
    | error e => rw [hr] at h; exact absurd h (by simp [Except.map])
    | ok sp3 =>
      rw [hr] at h
      simp only [Except.map, Except.ok.injEq] at h
      subst h
      rfl
  | true =>
    obtain ⟨sp3, s0, rest, hrun, hspec, htr⟩ := extract_true_ok_shape env s p tr h
    subst htr
    rfl

/-- Witness for C1 at a concrete environment and inputs. -/
theorem extract_spectrum_configures_and_runs_once_witness :
    extract_spectrum sampleEnv "demo_s2d.fits" "p.json" true = .ok sampleTrace ∧
    (List.filter Effect.isRun sampleTrace =
      [Effect.runStep (configuredStep sampleEnv "p.json") "demo_s2d.fits"] ∧
     (configuredStep sampleEnv "p.json").override_extract1d = "p.json") :=
  ⟨rfl, extract_spectrum_configures_and_runs_once sampleEnv "demo_s2d.fits" "p.json"
          true sampleTrace rfl⟩

/-- C2: with the plot flag on, the single `plt.plot` call receives the
`WAVELENGTH` column of the first spectrum of the returned product as its
x argument and that spectrum's `FLUX` column as its y argument, both
unmodified. -/
theorem extract_spectrum_plot_columns {α ε : Type} (env : Env α ε) (s p : String)
    (sp3 : SpectralProduct α) (s0 : Spectrum α) (rest : List (Spectrum α))
    (tr : List (Effect α))
    (hrun : env.runStep (configuredStep env p) s = .ok sp3)
    (hspec : sp3.spec = s0 :: rest)
    (h : extract_spectrum env s p true = .ok tr) :
    List.filter Effect.isPlot tr =
      [Effect.plotXY (s0.spec_table "WAVELENGTH") (s0.spec_table "FLUX")] := by
  obtain ⟨sp3', s0', rest', hrun', hspec', htr⟩ := extract_true_ok_shape env s p tr h
  rw [hrun] at hrun'
  injection hrun' with he
  subst he
  rw [hspec] at hspec'
  injection hspec' with h1 h2
  subst h1
  subst htr
  rfl

/-- Witness for C2 at a concrete environment and inputs. -/
theorem extract_spectrum_plot_columns_witness :
    sampleEnv.runStep (configuredStep sampleEnv "p.json") "demo_s2d.fits" =
      .ok sampleProduct ∧
    sampleProduct.spec = [⟨sampleTable⟩] ∧
    extract_spectrum sampleEnv "demo_s2d.fits" "p.json" true = .ok sampleTrace ∧
    List.filter Effect.isPlot sampleTrace =
      [Effect.plotXY (sampleTable "WAVELENGTH") (sampleTable "FLUX")] :=
  ⟨rfl, rfl, rfl,
   extract_spectrum_plot_columns sampleEnv "demo_s2d.fits" "p.json" sampleProduct
     ⟨sampleTable⟩ [] sampleTrace rfl rfl rfl⟩

/-- C3: with the plot flag on, the single `plt.savefig` call receives the
product's `meta.filename` with `"_extract1dstep.fits"` replaced by
`".png"`. -/
theorem extract_spectrum_plot_filename {α ε : Type} (env : Env α ε) (s p : String)
    (sp3 : SpectralProduct α) (tr : List (Effect α))
    (hrun : env.runStep (configuredStep env p) s = .ok sp3)
    (h : extract_spectrum env s p true = .ok tr) :
    List.filter Effect.isSave tr =
      [Effect.savefig (pyReplace sp3.meta.filename "_extract1dstep.fits" ".png")] := by
  obtain ⟨sp3', s0', rest', hrun', hspec', htr⟩ := extract_true_ok_shape env s p tr h
  rw [hrun] at hrun'
  injection hrun' with he
  subst he
  subst htr
  rfl

/-- Witness for C3 at a concrete environment and inputs. -/
theorem extract_spectrum_plot_filename_witness :
    sampleEnv.runStep (configuredStep sampleEnv "p.json") "demo_s2d.fits" =
      .ok sampleProduct ∧
    extract_spectrum sampleEnv "demo_s2d.fits" "p.json" true = .ok sampleTrace ∧
    List.filter Effect.isSave sampleTrace =
      [Effect.savefig (pyReplace sampleProduct.meta.filename
        "_extract1dstep.fits" ".png")] :=
  ⟨rfl, rfl,
   extract_spectrum_plot_filename sampleEnv "demo_s2d.fits" "p.json" sampleProduct
     sampleTrace rfl rfl⟩

/-- C4: with the plot flag off, the call is exactly the step invocation —
its trace holds the `runStep` effect alone, with no matplotlib effect and
no `savefig`, and the outcome does not depend on the plotting library at
all (any two environments sharing the step behave identically). -/
theorem extract_spectrum_noplot {α ε : Type} (env env' : Env α ε) (s p : String) :
    extract_spectrum env s p false =
      Except.map (fun _ => [Effect.runStep (configuredStep env p) s])
        (env.runStep (configuredStep env p) s) ∧
    (env'.initStep = env.initStep → env'.runStep = env.runStep →
      extract_spectrum env' s p false = extract_spectrum env s p false) := by
  refine ⟨extract_false_eq env s p, fun h1 h2 => ?_⟩
  rw [extract_false_eq, extract_false_eq]
  unfold configuredStep
  rw [h1, h2]

/-- Witness for C4: an environment whose matplotlib raises on every call
behaves identically with the plot flag off. -/
theorem extract_spectrum_noplot_witness :
    sampleEnvMplBroken.initStep = sampleEnv.initStep ∧
    sampleEnvMplBroken.runStep = sampleEnv.runStep ∧
    extract_spectrum sampleEnvMplBroken "demo_s2d.fits" "p.json" false =
      extract_spectrum sampleEnv "demo_s2d.fits" "p.json" false :=
  ⟨rfl, rfl,
   (extract_spectrum_noplot sampleEnv sampleEnvMplBroken "demo_s2d.fits" "p.json").2
     rfl rfl⟩

/-- C5: the function installs no exception handler: an error raised by the
extraction step, or by any of the matplotlib calls when it is reached, is
returned unchanged as the result of `extract_spectrum`. -/
theorem extract_spectrum_error_propagation {α ε : Type} (env : Env α ε)
    (s p : String) (b : Bool) (e : ε) (sp3 : SpectralProduct α)
    (s0 : Spectrum α) (rest : List (Spectrum α)) :
    (env.runStep (configuredStep env p) s = .error e →
      extract_spectrum env s p b = .error e) ∧
    (env.runStep (configuredStep env p) s = .ok sp3 →
      env.mplFigure [10, 6] = .error e →
      extract_spectrum env s p true = .error e) ∧
    (env.runStep (configuredStep env p) s = .ok sp3 →
      sp3.spec = s0 :: rest →
      env.mplFigure [10, 6] = .ok () →
      env.mplPlot (s0.spec_table "WAVELENGTH") (s0.spec_table "FLUX") = .error e →
      extract_spectrum env s p true = .error e) ∧
    (env.runStep (configuredStep env p) s = .ok sp3 →
      sp3.spec = s0 :: rest →
      env.mplFigure [10, 6] = .ok () →
      env.mplPlot (s0.spec_table "WAVELENGTH") (s0.spec_table "FLUX") = .ok () →
      env.mplTitle sp3.meta.filename = .error e →
      extract_spectrum env s p true = .error e) ∧
    (env.runStep (configuredStep env p) s = .ok sp3 →
      sp3.spec = s0 :: rest →
      env.mplFigure [10, 6] = .ok () →
      env.mplPlot (s0.spec_table "WAVELENGTH") (s0.spec_table "FLUX") = .ok () →
      env.mplTitle sp3.meta.filename = .ok () →
      env.mplXlabel "micron" = .error e →
      extract_spectrum env s p true = .error e) ∧
    (env.runStep (configuredStep env p) s = .ok sp3 →
      sp3.spec = s0 :: rest →
      env.mplFigure [10, 6] = .ok () →
      env.mplPlot (s0.spec_table "WAVELENGTH") (s0.spec_table "FLUX") = .ok () →
      env.mplTitle sp3.meta.filename = .ok () →
      env.mplXlabel "micron" = .ok () →
      env.mplYlabel "Jy" = .error e →
      extract_spectrum env s p true = .error e) ∧
    (env.runStep (configuredStep env p) s = .ok sp3 →
      sp3.spec = s0 :: rest →
      env.mplFigure [10, 6] = .ok () →
      env.mplPlot (s0.spec_table "WAVELENGTH") (s0.spec_table "FLUX") = .ok () →
      env.mplTitle sp3.meta.filename = .ok () →
      env.mplXlabel "micron" = .ok () →
      env.mplYlabel "Jy" = .ok () →
      env.mplSavefig (pyReplace sp3.meta.filename "_extract1dstep.fits" ".png") =
        .error e →
      extract_spectrum env s p true = .error e) := by
  refine ⟨?_, ?_, ?_, ?_, ?_, ?_, ?_⟩
  · intro hrun
    simp [extract_spectrum, hrun]
  · intro hrun hfig
    simp [extract_spectrum, hrun, hfig]
  · intro hrun hspec hfig hplot
    simp [extract_spectrum, hrun, hspec, hfig, hplot]
  · intro hrun hspec hfig hplot htitle
    simp [extract_spectrum, hrun, hspec, hfig, hplot, htitle]
  · intro hrun hspec hfig hplot htitle hx
    simp [extract_spectrum, hrun, hspec, hfig, hplot, htitle, hx]
  · intro hrun hspec hfig hplot htitle hx hy
    simp [extract_spectrum, hrun, hspec, hfig, hplot, htitle, hx, hy]
  · intro hrun hspec hfig hplot htitle hx hy hsave
    simp [extract_spectrum, hrun, hspec, hfig, hplot, htitle, hx, hy, hsave]

/-- Witness for C5: a step error and a `savefig` error each surface
unchanged. -/
theorem extract_spectrum_error_propagation_witness :
    sampleEnv.runStep (configuredStep sampleEnv "p.json") "missing.fits" =
      .error "FileNotFoundError" ∧
    extract_spectrum sampleEnv "missing.fits" "p.json" true =
      .error "FileNotFoundError" ∧
    sampleEnvSaveFail.mplSavefig "jw01.png" = .error "OSError" ∧
    extract_spectrum sampleEnvSaveFail "demo_s2d.fits" "p.json" true =
      .error "OSError" := by
  refine ⟨rfl, ?_, rfl, ?_⟩
  · exact (extract_spectrum_error_propagation sampleEnv "missing.fits" "p.json" true
      "FileNotFoundError" sampleProduct ⟨sampleTable⟩ []).1 rfl
  · exact (extract_spectrum_error_propagation sampleEnvSaveFail "demo_s2d.fits" "p.json"
      true "OSError" sampleProduct ⟨sampleTable⟩ []).2.2.2.2.2.2 rfl rfl rfl rfl rfl
      rfl rfl rfl

/-- Every `runStep` effect in a successful trace carries the configuration
built by lines 14-18. -/
theorem runStep_mem_cfg {α ε : Type} (env : Env α ε) (s p : String) (b : Bool)
    (tr : List (Effect α)) (cfg : StepConfig) (inp : String)
    (h : extract_spectrum env s p b = .ok tr)
    (hmem : Effect.runStep cfg inp ∈ tr) : cfg = configuredStep env p := by
  cases b with
  | false =>
    rw [extract_false_eq] at h
    cases hr : env.runStep (configuredStep env p) s with
    | error e => rw [hr] at h; exact absurd h (by simp [Except.map])
    | ok sp3 =>
      rw [hr] at h
      simp only [Except.map, Except.ok.injEq] at h
      subst h
      simp at hmem
      exact hmem.1
  | true =>
    obtain ⟨sp3, s0, rest, hrun, hspec, htr⟩ := extract_true_ok_shape env s p tr h
    subst htr
    simp at hmem
    exact hmem.1

/-- C6: in every successful invocation the step invoked was configured to
save its results (`save_results = True`) into the output directory
`"./"`. -/
theorem extract_spectrum_saves_results {α ε : Type} (env : Env α ε) (s p : String)
    (b : Bool) (tr : List (Effect α)) (cfg : StepConfig) (inp : String)
    (h : extract_spectrum env s p b = .ok tr)
    (hmem : Effect.runStep cfg inp ∈ tr) :
    cfg.save_results = true ∧ cfg.output_dir = "./" := by
  rw [runStep_mem_cfg env s p b tr cfg inp h hmem]
  exact ⟨rfl, rfl⟩

/-- Witness for C6 at a concrete environment and inputs. -/
theorem extract_spectrum_saves_results_witness :
    extract_spectrum sampleEnv "demo_s2d.fits" "p.json" true = .ok sampleTrace ∧
    Effect.runStep sampleCfg "demo_s2d.fits" ∈ sampleTrace ∧
    (sampleCfg.save_results = true ∧ sampleCfg.output_dir = "./") := by
  refine ⟨rfl, by decide, ?_⟩
  exact extract_spectrum_saves_results sampleEnv "demo_s2d.fits" "p.json" true
    sampleTrace sampleCfg "demo_s2d.fits" rfl (by decide)

/-- The step configuration `sampleEnv` produces for parameter file
`"other_par.json"`. -/
def sampleCfgOther : StepConfig :=
  { save_results := true, output_dir := "./",
    override_extract1d := "other_par.json", use_source_posn := false }

/-- C9: every invocation, whatever its three arguments, runs the step with
the same fixed settings `save_results = True`, `output_dir = "./"` and
`use_source_posn = False`. -/
theorem extract_spectrum_fixed_settings {α ε : Type} (env : Env α ε) (s p : String)
    (b : Bool) (tr : List (Effect α)) (cfg : StepConfig) (inp : String)
    (h : extract_spectrum env s p b = .ok tr)
    (hmem : Effect.runStep cfg inp ∈ tr) :
    cfg.save_results = true ∧ cfg.output_dir = "./" ∧
      cfg.use_source_posn = false := by
  rw [runStep_mem_cfg env s p b tr cfg inp h hmem]
  exact ⟨rfl, rfl, rfl⟩

/-- Witness for C9 at a concrete environment and inputs, with the plot
flag off. -/
theorem extract_spectrum_fixed_settings_witness :
    extract_spectrum sampleEnv "demo_s2d.fits" "other_par.json" false =
      .ok [Effect.runStep sampleCfgOther "demo_s2d.fits"] ∧
    (sampleCfgOther.save_results = true ∧ sampleCfgOther.output_dir = "./" ∧
     sampleCfgOther.use_source_posn = false) := by
  refine ⟨rfl, ?_⟩
  exact extract_spectrum_fixed_settings sampleEnv "demo_s2d.fits" "other_par.json"
    false [Effect.runStep sampleCfgOther "demo_s2d.fits"] sampleCfgOther
    "demo_s2d.fits" rfl (by decide)

/-- C7: the `__main__` block forwards the three parsed values — input file,
parameter file, plot flag — unchanged as the three arguments of
`extract_spectrum`. -/
theorem mainCli_forwards_args {α ε : Type} (env : Env α ε) (c : CmdLine)
    (args : Args) (h : parse_args c = some args) :
    mainCli env c =
      some (extract_spectrum env args.s2dfile args.parfile args.save_plot) := by
  unfold mainCli
  rw [h]
  rfl

/-- Witness for C7 at a concrete command line. -/
theorem mainCli_forwards_args_witness :
    parse_args ⟨some "a_s2d.fits", some "pp.json", true⟩ =
      some ⟨"a_s2d.fits", "pp.json", true⟩ ∧
    mainCli sampleEnv ⟨some "a_s2d.fits", some "pp.json", true⟩ =
      some (extract_spectrum sampleEnv "a_s2d.fits" "pp.json" true) :=
  ⟨rfl, mainCli_forwards_args sampleEnv ⟨some "a_s2d.fits", some "pp.json", true⟩
    ⟨"a_s2d.fits", "pp.json", true⟩ rfl⟩

/-- C8: only `--s2dfile` is required; an omitted `--parfile` defaults to
`"miri_lrs_demo_extract1d.json"` and an omitted `--save_plot` leaves the
flag false. -/
theorem parse_args_defaults (s p : String) (b : Bool) :
    parse_args ⟨some s, none, b⟩ =
      some ⟨s, "miri_lrs_demo_extract1d.json", b⟩ ∧
    parse_args ⟨some s, none, false⟩ =
      some ⟨s, "miri_lrs_demo_extract1d.json", false⟩ ∧
    parse_args ⟨none, some p, b⟩ = none ∧
    (parse_args ⟨some s, some p, b⟩).isSome = true :=
  ⟨rfl, rfl, rfl, rfl⟩

/-- A product whose filename does not contain `"_extract1dstep.fits"`. -/
def sampleProductPlain : SpectralProduct Int :=
  { meta := { filename := "jw01_s2d.fits" },
    spec := [{ spec_table := sampleTable }] }

/-- Like `sampleEnv` but the step returns `sampleProductPlain`. -/
def sampleEnvPlain : Env Int String :=
  { sampleEnv with
    runStep := fun _ inp =>
      if inp = "demo_s2d.fits" then .ok sampleProductPlain
      else .error "FileNotFoundError" }

/-- The trace produced by `sampleEnvPlain` on a successful plotted run:
the plot is saved under the product's unchanged `.fits` filename. -/
def sampleTracePlain : List (Effect Int) :=
  [Effect.runStep sampleCfg "demo_s2d.fits",
   Effect.figure [10, 6],
   Effect.plotXY [5, 6, 7] [10, 20, 30],
   Effect.title "jw01_s2d.fits",
   Effect.xlabel "micron", Effect.ylabel "Jy",
   Effect.savefig "jw01_s2d.fits"]

/-- C10: when the product's `meta.filename` does not contain the substring
`"_extract1dstep.fits"`, the replacement is a no-op and `plt.savefig`
receives the product's original filename unchanged. -/
theorem extract_spectrum_savefig_noop {α ε : Type} (env : Env α ε) (s p : String)
    (sp3 : SpectralProduct α) (tr : List (Effect α))
    (hrun : env.runStep (configuredStep env p) s = .ok sp3)
    (hnc : containsSub sp3.meta.filename.data ("_extract1dstep.fits").data = false)
    (h : extract_spectrum env s p true = .ok tr) :
    List.filter Effect.isSave tr = [Effect.savefig sp3.meta.filename] := by
  obtain ⟨sp3', s0', rest', hrun', hspec', htr⟩ := extract_true_ok_shape env s p tr h
  rw [hrun] at hrun'
  injection hrun' with he
  subst he
  have hrepl := pyReplace_of_not_contains sp3.meta.filename "_extract1dstep.fits"
    ".png" hnc
  subst htr
  show [Effect.savefig (pyReplace sp3.meta.filename "_extract1dstep.fits" ".png")] =
    [Effect.savefig sp3.meta.filename]
  rw [hrepl]

/-- Witness for C10: a run whose product is named `"jw01_s2d.fits"` saves
the plot over that very name. -/
theorem extract_spectrum_savefig_noop_witness :
    sampleEnvPlain.runStep (configuredStep sampleEnvPlain "p.json") "demo_s2d.fits" =
      .ok sampleProductPlain ∧
    containsSub sampleProductPlain.meta.filename.data
      ("_extract1dstep.fits").data = false ∧
    extract_spectrum sampleEnvPlain "demo_s2d.fits" "p.json" true =
      .ok sampleTracePlain ∧
    List.filter Effect.isSave sampleTracePlain =
      [Effect.savefig sampleProductPlain.meta.filename] :=
  ⟨rfl, by decide, rfl,
   extract_spectrum_savefig_noop sampleEnvPlain "demo_s2d.fits" "p.json"
     sampleProductPlain sampleTracePlain rfl (by decide) rfl⟩
